import Mathlib

/-
Verification development for the youless-client library.

The Go source is shallowly embedded: pure functions become Lean functions,
the HTTP transport becomes an explicit oracle or scripted list of outcomes,
`time.Time` is modelled as whole seconds since the Unix epoch (every
construct in the code works at second granularity, so the nanosecond
resolution of time.Duration is irrelevant), machine integers become Nat/Int
with explicit wrap-around where a Go conversion can overflow, fallible Go
code returns Option/Except, and a Go runtime panic is a dedicated outcome
constructor.
-/

namespace Youless

/- ## Go time environment: seconds since the Unix epoch -/

/-- Model of Go time.Time (UTC): whole seconds since the Unix epoch.
Monotonic clock and nanoseconds are not used by the embedded code. -/
structure GoTime where
  sec : Int
deriving DecidableEq

/-- Proleptic-Gregorian day count from civil date (Howard Hinnant's
days_from_civil), days since 1970-01-01. -/
def daysFromCivil (y m d : Int) : Int :=
  let y := y - (if m ≤ 2 then 1 else 0)
  let era := Int.fdiv y 400
  let yoe := y - era * 400
  let mp := m + (if 2 < m then -3 else 9)
  let doy := (153 * mp + 2) / 5 + d - 1
  let doe := yoe * 365 + yoe / 4 - yoe / 100 + doy
  era * 146097 + doe - 719468

/-- Inverse of daysFromCivil (Hinnant's civil_from_days): (year, month, day). -/
def civilFromDays (z : Int) : Int × Int × Int :=
  let z := z + 719468
  let era := Int.fdiv z 146097
  let doe := z - era * 146097
  let yoe := (doe - doe / 1460 + doe / 36524 - doe / 146096) / 365
  let y := yoe + era * 400
  let doy := doe - (365 * yoe + yoe / 4 - yoe / 100)
  let mp := (5 * doy + 2) / 153
  let d := doy - (153 * mp + 2) / 5 + 1
  let m := mp + (if mp < 10 then 3 else -9)
  (y + (if m ≤ 2 then 1 else 0), m, d)

/-- Model of Go time.Date(y, m, d, h, mi, s, 0, time.UTC). -/
def goDate (y m d h mi s : Int) : GoTime :=
  ⟨daysFromCivil y m d * 86400 + h * 3600 + mi * 60 + s⟩

/-- The zero Go time.Time: January 1, year 1, 00:00:00 UTC. -/
def goZeroTime : GoTime := goDate 1 1 1 0 0 0

def GoTime.days (t : GoTime) : Int := Int.fdiv t.sec 86400

def GoTime.secondsOfDay (t : GoTime) : Int := Int.emod t.sec 86400

def GoTime.year (t : GoTime) : Int := (civilFromDays t.days).1

def GoTime.month (t : GoTime) : Int := (civilFromDays t.days).2.1

def GoTime.day (t : GoTime) : Int := (civilFromDays t.days).2.2

def GoTime.hour (t : GoTime) : Int := t.secondsOfDay / 3600

def GoTime.minute (t : GoTime) : Int := (Int.emod t.secondsOfDay 3600) / 60

/-- Model of Go time.Time.Add for a whole-second duration. -/
def GoTime.add (t : GoTime) (dtSec : Int) : GoTime := ⟨t.sec + dtSec⟩

def isLeapYear (y : Int) : Bool :=
  Int.emod y 4 = 0 ∧ (Int.emod y 100 ≠ 0 ∨ Int.emod y 400 = 0)

/-- Number of days in a month, as validated by Go's time.Parse
("day out of range"). -/
def daysInMonth (y : Int) (m : Nat) : Nat :=
  match m with
  | 1 => 31 | 3 => 31 | 5 => 31 | 7 => 31 | 8 => 31 | 10 => 31 | 12 => 31
  | 4 => 30 | 6 => 30 | 9 => 30 | 11 => 30
  | 2 => if isLeapYear y then 29 else 28
  | _ => 0

/- ## Text parsing primitives (Go time.Parse and strconv) -/

def digitVal? (c : Char) : Option Nat :=
  if '0' ≤ c ∧ c ≤ '9' then some (c.toNat - 48) else none

/-- Exactly two digits (a fixed-width numeric field of a Go time layout). -/
def num2? : List Char → Option (Nat × List Char)
  | a :: b :: rest =>
    match digitVal? a, digitVal? b with
    | some x, some y => some (x * 10 + y, rest)
    | _, _ => none
  | _ => none

/-- Exactly four digits (the "2006" year field of a Go time layout). -/
def num4? : List Char → Option (Nat × List Char)
  | a :: b :: c :: d :: rest =>
    match digitVal? a, digitVal? b, digitVal? c, digitVal? d with
    | some w, some x, some y, some z => some (w * 1000 + x * 100 + y * 10 + z, rest)
    | _, _, _, _ => none
  | _ => none

/-- A literal layout character. -/
def lit? (c : Char) : List Char → Option (List Char)
  | x :: rest => if x = c then some rest else none
  | [] => none

/-- Model of Go time.Parse with layout "2006-01-02T15:04:05"
(LogTimeLayout / ReportTimeLayout): fixed-width fields, literal
separators, full consumption of the input, and range validation. -/
def goParseLogTime (s : String) : Option GoTime := do
  let (y, r) ← num4? s.data
  let r ← lit? '-' r
  let (mo, r) ← num2? r
  let r ← lit? '-' r
  let (d, r) ← num2? r
  let r ← lit? 'T' r
  let (h, r) ← num2? r
  let r ← lit? ':' r
  let (mi, r) ← num2? r
  let r ← lit? ':' r
  let (sec, r) ← num2? r
  if r = [] ∧ 1 ≤ mo ∧ mo ≤ 12 ∧ 1 ≤ d ∧ d ≤ daysInMonth (Int.ofNat y) mo ∧
      h < 24 ∧ mi < 60 ∧ sec < 60 then
    some (goDate (Int.ofNat y) (Int.ofNat mo) (Int.ofNat d) (Int.ofNat h)
      (Int.ofNat mi) (Int.ofNat sec))
  else none

/-- Model of Go time.Parse with layout "0601021504" (TimestampLayout,
"YYMMDDHHmm"): five fixed-width two-digit fields, full consumption, range
validation; the two-digit year yy maps to 2000+yy when yy < 69, else
1900+yy (Go's rule for the "06" layout field). -/
def goParseCompactTime (s : String) : Option GoTime := do
  let (yy, r) ← num2? s.data
  let (mo, r) ← num2? r
  let (d, r) ← num2? r
  let (h, r) ← num2? r
  let (mi, r) ← num2? r
  let y : Int := if yy < 69 then 2000 + yy else 1900 + yy
  if r = [] ∧ 1 ≤ mo ∧ mo ≤ 12 ∧ 1 ≤ d ∧ d ≤ daysInMonth y mo ∧
      h < 24 ∧ mi < 60 then
    some (goDate y (Int.ofNat mo) (Int.ofNat d) (Int.ofNat h) (Int.ofNat mi) 0)
  else none

/-- Whitespace trimmed by strings.TrimSpace (unicode.IsSpace over the
Latin-1 range; the wider Unicode space classes do not occur in device
payloads, which are ASCII). -/
def isGoSpace (c : Char) : Bool :=
  c = ' ' ∨ c = '\t' ∨ c = '\n' ∨ c = '\r' ∨
  c.toNat = 11 ∨ c.toNat = 12 ∨ c.toNat = 133 ∨ c.toNat = 160

/-- Model of Go strings.TrimSpace. -/
def goTrimSpace (s : String) : String :=
  ⟨((s.data.dropWhile isGoSpace).reverse.dropWhile isGoSpace).reverse⟩

def digitsToNatAux : List Char → Nat → Option Nat
  | [], acc => some acc
  | c :: r, acc =>
    match digitVal? c with
    | none => none
    | some d => digitsToNatAux r (acc * 10 + d)

/-- A nonempty all-digit run, base 10. -/
def digitsToNat? : List Char → Option Nat
  | [] => none
  | l => digitsToNatAux l 0

/-- Model of Go strconv.ParseInt(s, 10, 0) on a 64-bit platform: optional
sign, nonempty decimal digits, int64 range check (out of range is an
error, like any syntax error). -/
def goParseInt64 (s : String) : Option Int :=
  match s.data with
  | [] => none
  | c :: rest =>
    let p : Bool × List Char :=
      if c = '-' then (true, rest)
      else if c = '+' then (false, rest)
      else (false, c :: rest)
    match digitsToNat? p.2 with
    | none => none
    | some n =>
      let v : Int := if p.1 then -(Int.ofNat n) else Int.ofNat n
      if -(2 ^ 63) ≤ v ∧ v ≤ 2 ^ 63 - 1 then some v else none

/- ## Interval and Utility descriptors (unnamed interval source file, utility source) -/

/-- Go: type Interval uint32 (values fit in 32 bits; no arithmetic wraps). -/
abbrev Interval := Nat

def PerMin : Interval := 60
def Per10min : Interval := 600
def PerHour : Interval := 3600
def PerDay : Interval := 86400

/-- Go: invalidInterval, the panic message for an out-of-set Interval. -/
def invalidInterval (i : Interval) : String :=
  Nat.repr i ++ " is not a valid youless.Interval"

/-- Interval.Duration, in whole seconds (the Go method returns the same
span as a nanosecond-resolution time.Duration); none models the panic on
an out-of-set value. -/
def Interval.Duration? (i : Interval) : Option Int :=
  if i = PerMin then some 60
  else if i = Per10min then some 600
  else if i = PerHour then some 3600
  else if i = PerDay then some 86400
  else none

/-- Interval.Param, the device query parameter character; none models the
panic on an out-of-set value. -/
def Interval.Param? (i : Interval) : Option Char :=
  if i = PerMin then some 'h'
  else if i = Per10min then some 'w'
  else if i = PerHour then some 'd'
  else if i = PerDay then some 'm'
  else none

/-- Go: type Utility string. -/
abbrev Utility := String

def Electricity : Utility := "electricity"
def Gas : Utility := "gas"
def Water : Utility := "water"
def S0 : Utility := "s0"

/-- Go: invalidUtility, the panic message for an out-of-set Utility. -/
def invalidUtility (u : Utility) : String :=
  u ++ " is not a valid youless.Utility"

/-- Utility.Endpoint, the endpoint page of the utility's data; none models
the panic on an out-of-set value. -/
def Utility.Endpoint? (u : Utility) : Option String :=
  if u = Electricity then some "V"
  else if u = S0 then some "Z"
  else if u = Gas then some "W"
  else if u = Water then some "K"
  else none

/- ## Errors and call outcomes -/

/-- The library's error values. transport wraps an underlying
network/transport error (errors.WithStack); decode wraps a
json.Unmarshal failure. -/
inductive GoErr
  | passwordRequired
  | invalidPassword
  | unexpectedResponse (statusCode : Nat)
  | unsupportedInterval (utility : Utility) (interval : Interval)
  | invalidLogPage
  | transport (msg : String)
  | decode (msg : String)
deriving DecidableEq

/-- Outcome of a Go call: a value, a returned error, or a runtime panic. -/
inductive GoOutcome (α : Type)
  | ok (a : α)
  | err (e : GoErr)
  | panics (msg : String)
deriving DecidableEq

def GoOutcome.isErr {α : Type} : GoOutcome α → Bool
  | .err _ => true
  | _ => false

def indexOutOfRangeMsg : String := "runtime error: index out of range"

def nilDerefMsg : String := "runtime error: invalid memory address or nil pointer dereference"

/- ## Log page decode (LogResponse.TimedValues, utility source revision) -/

structure LogResponse where
  unit : String
  timestamp : String
  interval : Interval
  rawValues : List String
deriving DecidableEq

structure TimedValue where
  time : Int
  value : Int
  inactive : Bool
deriving DecidableEq

/-- Result of LogResponse.TimedValues: the Go function returns the pair
(res, err); errWith keeps the partial samples alongside the error, and
panics models the Interval.Duration panic on an out-of-set interval. -/
inductive TVResult
  | ok (res : List TimedValue)
  | errWith (res : List TimedValue) (e : String)
  | panics (msg : String)
deriving DecidableEq

/-- The error message of strconv.ParseInt on a non-integer value
(modelled as an opaque function of the offending value). -/
def parseIntErr (v : String) : String :=
  "strconv.ParseInt: parsing " ++ v ++ ": invalid syntax"

/-- The loop body of LogResponse.TimedValues: walk the raw values with
index i and running timestamp tm (seconds); break before the final slot
when it is empty; empty or "*" yields an inactive sample; otherwise parse
an integer, failing with the samples accumulated so far. -/
def timedValuesAux (dt : Int) (endIdx : Nat) :
    Nat → Int → List String → List TimedValue × Option String
  | _, _, [] => ([], none)
  | i, tm, v :: rest =>
    if i = endIdx ∧ v = "" then ([], none)
    else if v = "" ∨ v = "*" then
      let p := timedValuesAux dt endIdx (i + 1) (tm + dt) rest
      (⟨tm, 0, true⟩ :: p.1, p.2)
    else
      match goParseInt64 (goTrimSpace v) with
      | none => ([], some (parseIntErr v))
      | some n =>
        let p := timedValuesAux dt endIdx (i + 1) (tm + dt) rest
        (⟨tm, n, false⟩ :: p.1, p.2)

/-- Package the (res, err) pair of the decode loop as a TVResult. -/
def timedValuesResult (dt : Int) (endIdx : Nat) (tm : Int)
    (values : List String) : TVResult :=
  match timedValuesAux dt endIdx 0 tm values with
  | (res, none) => TVResult.ok res
  | (res, some e) => TVResult.errWith res e

/-- The page start time in seconds: Go "tm, _ := time.Parse(...)" keeps
the zero time.Time when parsing fails. -/
def logStartSec (r : LogResponse) : Int :=
  ((goParseLogTime r.timestamp).getD goZeroTime).sec

/-- LogResponse.TimedValues. -/
def LogResponse.TimedValues (r : LogResponse) : TVResult :=
  match Interval.Duration? r.interval with
  | none => TVResult.panics (invalidInterval r.interval)
  | some dt =>
    timedValuesResult dt (r.rawValues.length - 1) (logStartSec r) r.rawValues

/-- The samples produced for a run of decodable raw values starting at
running time tm: an empty or "*" value is an inactive zero sample, any
other value carries its parsed integer. -/
def goodSamples (dt : Int) : Int → List String → List TimedValue
  | _, [] => []
  | tm, w :: ws =>
    (if w = "" ∨ w = "*" then (⟨tm, 0, true⟩ : TimedValue)
     else ⟨tm, (goParseInt64 (goTrimSpace w)).getD 0, false⟩)
      :: goodSamples dt (tm + dt) ws

/- ## GetLog (apiRequester.GetLog, utility source revision) -/

/-- The unsupported-combination pre-check at the top of GetLog (and of
Client.GetReport): per-minute interval with gas or water. -/
def unsupportedCheck (u : Utility) (i : Interval) : Bool :=
  i = PerMin ∧ (u = Gas ∨ u = Water)

/-- apiRequester.GetLog, with the underlying Requester modelled as an
oracle from the request path to a decoded response; the second component
counts how many times the Requester was invoked. -/
def getLog (requester : String → Except GoErr LogResponse)
    (u : Utility) (i : Interval) (page : Nat) :
    GoOutcome LogResponse × Nat :=
  if unsupportedCheck u i then
    (GoOutcome.err (GoErr.unsupportedInterval u i), 0)
  else if page = 0 then (GoOutcome.err GoErr.invalidLogPage, 0)
  else
    match Utility.Endpoint? u with
    | none => (GoOutcome.panics (invalidUtility u), 0)
    | some ep =>
      match Interval.Param? i with
      | none => (GoOutcome.panics (invalidInterval i), 0)
      | some pc =>
        let path := ep ++ "?" ++ String.singleton pc ++ "=" ++ Nat.repr page ++ "&f=j"
        match requester path with
        | .error e => (GoOutcome.err e, 1)
        | .ok res => (GoOutcome.ok res, 1)

/- ## Client.Request HTTP outcome classification (client source, latest revision) -/

/-- An HTTP response as seen by Client.Request after client.Do: status
code and the full body (bytes as Nat < 256). -/
structure HTTPResp where
  statusCode : Nat
  body : List Nat
deriving DecidableEq

/-- The outcome classification inside Client.Request's leader function:
a transport failure from client.Do is wrapped and surfaced; 403 maps to
the password-required error; any other status above 400 maps to
UnexpectedResponseError with that status; otherwise io.ReadAll returns
the full body. -/
def doClassify (exchange : Except String HTTPResp) : Except GoErr (List Nat) :=
  match exchange with
  | .error msg => .error (GoErr.transport msg)
  | .ok r =>
    if r.statusCode = 403 then .error GoErr.passwordRequired
    else if r.statusCode > 400 then .error (GoErr.unexpectedResponse r.statusCode)
    else .ok r.body

/-- Client.Request in raw-bytes mode (out is a *[]byte, so unmarshalling
is skipped and the body is assigned as-is), run against a scripted
transport: the leader function performs exactly one client.Do, consuming
exactly the head of the script; the unconsumed tail is returned so that
the absence of any retry is part of the result. The cookie/auth steps
preceding the exchange are not modelled here (they are covered by the
Authorize embedding). -/
def clientRequestRaw (script : List (Except String HTTPResp)) :
    Except GoErr (List Nat) × List (Except String HTTPResp) :=
  match script with
  | [] => (.error (GoErr.transport "no response"), [])
  | e :: rest => (doClassify e, rest)

/- ## Client.Authorize (client source, latest revision) -/

/-- Model of http.Cookie as captured by fetchAuthCookie (name "tk"). -/
structure GoCookie where
  name : String
  value : String
deriving DecidableEq

/-- Client.Authorize, as a function of the POST exchange outcome
(transport error or response status; the response body is unused) and of
the cookie cached after the exchange (c.cookie.Load(): the fetchAuthCookie
redirect hook stores the device's "tk" cookie when one was issued).
A transport failure is wrapped; 403 maps to the invalid-password error;
any other status above 400 maps to UnexpectedResponseError; on success the
code dereferences c.cookie.Load() unconditionally, which is a nil-pointer
panic when no cookie was captured. -/
def authorize (exchange : Except String Nat) (cookieAfter : Option GoCookie) :
    GoOutcome GoCookie :=
  match exchange with
  | .error msg => GoOutcome.err (GoErr.transport msg)
  | .ok status =>
    if status = 403 then GoOutcome.err GoErr.invalidPassword
    else if status > 400 then GoOutcome.err (GoErr.unexpectedResponse status)
    else
      match cookieAfter with
      | none => GoOutcome.panics nilDerefMsg
      | some ck => GoOutcome.ok ck

/- ## Meter reading (api meter source, latest revision) -/

/-- Go float64 fields are modelled as exact rationals: the values travel
from json.Unmarshal to the caller without any arithmetic, so only
decidable equality of carried values matters. -/
structure ElectricityReading where
  Timestamp : Int
  ElectricityImport1 : Rat
  ElectricityImport2 : Rat
  ElectricityExport1 : Rat
  ElectricityExport2 : Rat
  NetElectricity : Rat
  Power : Int
deriving DecidableEq

structure S0Reading where
  S0Timestamp : Int
  S0Total : Rat
  S0 : Int
deriving DecidableEq

structure GasReading where
  GasTimestamp : Nat
  GasTotal : Rat
deriving DecidableEq

structure WaterReading where
  WaterTimestamp : Nat
  WaterTotal : Rat
deriving DecidableEq

structure MeterReadingResponse where
  electricity : ElectricityReading
  s0 : S0Reading
  gas : GasReading
  water : WaterReading
deriving DecidableEq

/-- apiRequester.GetMeterReading as a function of the decoded response of
the /e endpoint (a JSON array of meter-reading shapes): a request/decode
error is propagated; otherwise the code returns res[0] with no length
check, which is an index-out-of-range panic when the array is empty. -/
def getMeterReading (decoded : Except GoErr (List MeterReadingResponse)) :
    GoOutcome MeterReadingResponse :=
  match decoded with
  | .error e => GoOutcome.err e
  | .ok [] => GoOutcome.panics indexOutOfRangeMsg
  | .ok (x :: _) => GoOutcome.ok x

/- ## Timestamp codec (timestamp source revision) -/

/-- ParseTimestamp: time.Parse of TimestampLayout "0601021504" applied to
strconv.FormatUint(ts, 10); none models the returned error. -/
def ParseTimestamp (ts : Nat) : Option GoTime :=
  goParseCompactTime (Nat.repr ts)

/-- ToTimestamp: the digit-weighted sum over calendar fields; the Go
result converts a 64-bit int to uint64, so it wraps modulo 2^64. -/
def ToTimestamp (t : GoTime) : Nat :=
  let v : Int := (t.year - 2000) * 100000000 + t.month * 1000000 +
    t.day * 10000 + t.hour * 100 + t.minute
  (Int.emod v (2 ^ 64)).toNat

/- ## Phase reading (api phase source) -/

/-- PhaseReading; Current and Voltage are Go float64 values modelled as
exact rationals (they come from JSON numbers, which carry no NaN, and the
code only compares them for equality). -/
structure PhaseReading where
  Current : Rat
  Power : Int
  Voltage : Rat
deriving DecidableEq

/-- PhaseReading.InUse: the literal predicate of the source,
r.Current == 0 && r.Power == 0. -/
def PhaseReading.InUse (r : PhaseReading) : Bool :=
  r.Current = 0 ∧ r.Power = 0

/- ## P1 telegram pagination (api telegram source) -/

/-- Outcome of GetP1Telegram; fuelOut marks exhaustion of the explicit
recursion fuel (never reached in the scenarios proved below). -/
inductive TelegramOutcome
  | ok (data : List Nat)
  | err (e : GoErr)
  | fuelOut
deriving DecidableEq

/-- The page loop of apiRequester.GetP1Telegram. State: page index i,
the atEnd flag, res.Data (none models the nil slice), and the list of
page numbers requested so far. Each iteration requests page i; an empty
body breaks; with at least 7 bytes the end marker is the byte at
offset 7 from the end being the exclamation mark (33), and an end-marked
first page is returned as-is; otherwise a nil res.Data is allocated by
make with length len(buf) (zero-filled) and buf is appended. The loop
runs while i <= 3 or atEnd is still false. -/
def telegramLoop (device : Nat → Except GoErr (List Nat)) :
    Nat → Nat → Bool → Option (List Nat) → List Nat →
    TelegramOutcome × List Nat
  | 0, _, _, _, reqs => (TelegramOutcome.fuelOut, reqs)
  | fuel + 1, i, atEnd, resData, reqs =>
    if i ≤ 3 ∨ atEnd = false then
      match device i with
      | .error e => (TelegramOutcome.err e, reqs ++ [i])
      | .ok buf =>
        let reqs := reqs ++ [i]
        if buf.length = 0 then (TelegramOutcome.ok (resData.getD []), reqs)
        else
          let atEnd := if 7 ≤ buf.length then
              decide (buf.getD (buf.length - 7) 0 = 33) else atEnd
          if 7 ≤ buf.length ∧ buf.getD (buf.length - 7) 0 = 33 ∧ i = 1 then
            (TelegramOutcome.ok buf, reqs)
          else
            let resData := match resData with
              | none => List.replicate buf.length 0 ++ buf
              | some d => d ++ buf
            telegramLoop device fuel (i + 1) atEnd (some resData) reqs
    else (TelegramOutcome.ok (resData.getD []), reqs)

/-- apiRequester.GetP1Telegram against a device oracle mapping page
numbers to page bodies; also returns the page numbers requested. -/
def getP1Telegram (device : Nat → Except GoErr (List Nat)) (fuel : Nat) :
    TelegramOutcome × List Nat :=
  telegramLoop device fuel 1 false none []

/- ## In-flight call deduplication (Client.groupRequest) -/

/-- Modelled from the spec: the in-flight call registry semantics of
golang.org/x/sync/singleflight.Group (an external dependency, not part of
this repository's sources) combined with the immediate Forget that
Client.groupRequest performs after Do. The state tracks, for one fixed
deduplication key, the callers joined to the in-flight exchange, whether
an exchange is pending, how many physical exchanges have completed, and
each caller's observed outcome. -/
structure SFState (α : Type) where
  waiters : List Nat
  pending : Bool
  exchanges : Nat
  results : List (Nat × α)

/-- Events of the registry: a caller invoking Do with the key, and the
completion of the pending physical exchange. -/
inductive SFEvent
  | arrive (caller : Nat)
  | complete

/-- Modelled from the spec: one registry transition. An arriving caller
joins a pending exchange, or starts one when none is pending; on
completion every joined caller observes the one outcome of this physical
exchange (fn applied to the exchange number) and the registry entry is
removed (singleflight's own cleanup plus the immediate Forget in
Client.groupRequest), so later callers start afresh. -/
def sfStep {α : Type} (fn : Nat → α) (s : SFState α) : SFEvent → SFState α
  | .arrive c =>
    if s.pending then { s with waiters := s.waiters ++ [c] }
    else { s with pending := true, waiters := [c] }
  | .complete =>
    if s.pending then
      { waiters := [], pending := false, exchanges := s.exchanges + 1,
        results := s.results ++ s.waiters.map (fun c => (c, fn s.exchanges)) }
    else s

def sfInit {α : Type} : SFState α := ⟨[], false, 0, []⟩

/-- Run the registry over a schedule of events. -/
def sfRun {α : Type} (fn : Nat → α) (evs : List SFEvent) : SFState α :=
  evs.foldl (sfStep fn) sfInit

/- ## Concrete devices and requesters used in closed statements -/

/-- A telegram page without the end marker: 7 bytes, none of them '!'. -/
def tgPage1 : List Nat := [65, 65, 65, 65, 65, 65, 65]

/-- A telegram page whose byte at offset 7 from the end is '!' (33). -/
def tgPage2 : List Nat := [33, 66, 66, 66, 66, 66, 66]

/-- A fake device whose very first page carries the end-of-telegram marker. -/
def tgDeviceOnePage : Nat → Except GoErr (List Nat) :=
  fun p => if p = 1 then Except.ok tgPage2 else Except.ok []

/-- A fake device whose telegram spans two pages: page 1 unmarked, page 2
end-marked, every later page empty. -/
def tgDeviceTwoPages : Nat → Except GoErr (List Nat) :=
  fun p =>
    if p = 1 then Except.ok tgPage1
    else if p = 2 then Except.ok tgPage2
    else Except.ok []

/-- A requester that always fails; used to witness that the pre-check
fires before any request. -/
def dummyRequester : String → Except GoErr LogResponse :=
  fun _ => Except.error (GoErr.transport "device unreachable")

/- ## Helper lemmas about the log decode loop -/

theorem tvAux_trailing_empty (dt : Int) (vs : List String) :
    ∀ (i e : Nat) (tm : Int), e = i + vs.length →
    timedValuesAux dt e i tm (vs ++ [""]) = timedValuesAux dt e i tm vs := by
  induction vs with
  | nil =>
    intro i e tm he
    subst he
    simp [timedValuesAux]
  | cons v vs ih =>
    intro i e tm he
    simp only [List.length_cons] at he
    have hie : i ≠ e := by omega
    have hne : ¬(i = e ∧ v = "") := fun h => hie h.1
    show timedValuesAux dt e i tm (v :: (vs ++ [""])) =
      timedValuesAux dt e i tm (v :: vs)
    simp only [timedValuesAux, if_neg hne]
    by_cases hv : v = "" ∨ v = "*"
    · simp only [if_pos hv, ih (i + 1) e (tm + dt) (by omega)]
    · simp only [if_neg hv]
      cases hp : goParseInt64 (goTrimSpace v) with
      | none => rfl
      | some n => simp only [ih (i + 1) e (tm + dt) (by omega)]

theorem tvAux_first_bad (dt : Int) (v : String) (rest : List String)
    (hv : ¬(v = "" ∨ v = "*")) (hp : goParseInt64 (goTrimSpace v) = none) :
    ∀ (pre : List String) (i e : Nat) (tm : Int),
      (∀ w ∈ pre, w = "" ∨ w = "*" ∨ goParseInt64 (goTrimSpace w) ≠ none) →
      i + pre.length ≤ e →
      timedValuesAux dt e i tm (pre ++ v :: rest) =
        (goodSamples dt tm pre, some (parseIntErr v)) := by
  intro pre
  induction pre with
  | nil =>
    intro i e tm _ _
    have hv1 : ¬ v = "" := fun h => hv (Or.inl h)
    show timedValuesAux dt e i tm (v :: rest) = _
    simp only [timedValuesAux]
    rw [if_neg (fun h => hv1 h.2), if_neg hv, hp]
    rfl
  | cons w pre ih =>
    intro i e tm hgood hle
    have hne : i ≠ e := by
      have := List.length_cons w pre
      omega
    have hw := hgood w (List.mem_cons_self w pre)
    have hgood' : ∀ x ∈ pre, x = "" ∨ x = "*" ∨ goParseInt64 (goTrimSpace x) ≠ none :=
      fun x hx => hgood x (List.mem_cons_of_mem w hx)
    have hle' : (i + 1) + pre.length ≤ e := by
      have := List.length_cons w pre
      omega
    show timedValuesAux dt e i tm (w :: (pre ++ v :: rest)) = _
    simp only [timedValuesAux]
    rw [if_neg (fun h => hne h.1)]
    by_cases hwi : w = "" ∨ w = "*"
    · rw [if_pos hwi, ih (i + 1) e (tm + dt) hgood' hle']
      simp [goodSamples, hwi]
    · rw [if_neg hwi]
      have hwp : goParseInt64 (goTrimSpace w) ≠ none := by
        rcases hw with h | h | h
        · exact absurd (Or.inl h) hwi
        · exact absurd (Or.inr h) hwi
        · exact h
      cases hq : goParseInt64 (goTrimSpace w) with
      | none => exact absurd hq hwp
      | some n =>
        rw [ih (i + 1) e (tm + dt) hgood' hle']
        simp [goodSamples, hwi, hq]

/- ## Claim theorems -/

/-- C1: for every execution of Client.Request in which the HTTP exchange
returns a response: status 403 fails with the password-required error;
any status above 400 other than 403 fails with UnexpectedResponseError
carrying exactly that status; a 2xx status returns the full body as raw
bytes; and a transport failure is surfaced as a wrapped error with the
rest of the transport script untouched (no retry). -/
theorem c1_request_outcome_classification :
    ∀ (r : HTTPResp) (rest : List (Except String HTTPResp)) (msg : String),
      (r.statusCode = 403 →
        clientRequestRaw (Except.ok r :: rest) =
          (Except.error GoErr.passwordRequired, rest)) ∧
      (r.statusCode > 400 → r.statusCode ≠ 403 →
        clientRequestRaw (Except.ok r :: rest) =
          (Except.error (GoErr.unexpectedResponse r.statusCode), rest)) ∧
      (200 ≤ r.statusCode → r.statusCode < 300 →
        clientRequestRaw (Except.ok r :: rest) = (Except.ok r.body, rest)) ∧
      clientRequestRaw (Except.error msg :: rest) =
        (Except.error (GoErr.transport msg), rest) := by
  intro r rest msg
  refine ⟨fun h403 => ?_, fun hgt hne => ?_, fun h2 h3 => ?_, rfl⟩
  · simp [clientRequestRaw, doClassify, h403]
  · simp [clientRequestRaw, doClassify, hne, hgt]
  · have hne : r.statusCode ≠ 403 := by omega
    have hle : ¬ r.statusCode > 400 := by omega
    simp [clientRequestRaw, doClassify, hne, hle]

theorem c1_request_outcome_classification_witness :
    clientRequestRaw (Except.ok ⟨403, [1]⟩ :: []) =
      (Except.error GoErr.passwordRequired, []) ∧
    clientRequestRaw (Except.ok ⟨500, [1]⟩ :: []) =
      (Except.error (GoErr.unexpectedResponse 500), []) ∧
    clientRequestRaw (Except.ok ⟨200, [7, 8]⟩ :: []) = (Except.ok [7, 8], []) ∧
    clientRequestRaw (Except.error "connection refused" :: []) =
      (Except.error (GoErr.transport "connection refused"), []) :=
  ⟨(c1_request_outcome_classification ⟨403, [1]⟩ [] "x").1 rfl,
   (c1_request_outcome_classification ⟨500, [1]⟩ [] "x").2.1 (by decide) (by decide),
   (c1_request_outcome_classification ⟨200, [7, 8]⟩ [] "x").2.2.1 (by decide) (by decide),
   (c1_request_outcome_classification ⟨200, []⟩ [] "connection refused").2.2.2⟩

/-- C2: the example page (start 2024-01-01T00:00:00, per-hour interval,
raw values ["10", "*", "20", ""]) decodes without error to exactly three
samples whose times start at the page start and step by one interval
duration, dropping the trailing empty slot; and in general, for every
page whose last raw value is the empty string, the decode result is that
of the values before it (the last raw value produces no output sample). -/
theorem c2_log_decode_trailing_empty :
    (LogResponse.TimedValues
        ⟨"Watt", "2024-01-01T00:00:00", PerHour, ["10", "*", "20", ""]⟩ =
      TVResult.ok [⟨1704067200, 10, false⟩, ⟨1704067200 + 3600, 0, true⟩,
        ⟨1704067200 + 2 * 3600, 20, false⟩] ∧
     goParseLogTime "2024-01-01T00:00:00" = some ⟨1704067200⟩ ∧
     Interval.Duration? PerHour = some 3600) ∧
    (∀ (r : LogResponse) (vs : List String) (dt : Int),
      r.rawValues = vs ++ [""] →
      Interval.Duration? r.interval = some dt →
      LogResponse.TimedValues r =
        timedValuesResult dt vs.length (logStartSec r) vs) := by
  constructor
  · exact ⟨by decide, by decide, by decide⟩
  · intro r vs dt h1 h2
    simp only [LogResponse.TimedValues, h2, h1, timedValuesResult]
    have hlen : (vs ++ [""]).length - 1 = vs.length := by
      simp only [List.length_append, List.length_cons, List.length_nil]
      omega
    rw [hlen, tvAux_trailing_empty dt vs 0 vs.length (logStartSec r) (by omega)]

theorem c2_log_decode_trailing_empty_witness :
    LogResponse.TimedValues ⟨"W", "2024-01-01T00:00:00", PerHour, ["5", "*", ""]⟩ =
      timedValuesResult 3600 2
        (logStartSec ⟨"W", "2024-01-01T00:00:00", PerHour, ["5", "*", ""]⟩)
        ["5", "*"] :=
  c2_log_decode_trailing_empty.2
    ⟨"W", "2024-01-01T00:00:00", PerHour, ["5", "*", ""]⟩ ["5", "*"] 3600 rfl rfl

/-- C3: what GetP1Telegram actually does. Against a device whose first
page carries the end marker, the result is that page's raw body with only
page 1 requested (as the claim states). Against a device whose telegram
spans two pages, however, the code also requests page 3 (the loop runs
while i <= 3 or the end flag is unset) and the result is len(page1) zero
bytes followed by page1 and page2 (res.Data is allocated by make with
length len(buf) before the first append), contradicting the claim. -/
theorem c3_telegram_pagination_behavior :
    getP1Telegram tgDeviceOnePage 10 = (TelegramOutcome.ok tgPage2, [1]) ∧
    getP1Telegram tgDeviceTwoPages 10 =
      (TelegramOutcome.ok (List.replicate 7 0 ++ tgPage1 ++ tgPage2), [1, 2, 3]) ∧
    (getP1Telegram tgDeviceTwoPages 10).1 ≠
      TelegramOutcome.ok (tgPage1 ++ tgPage2) ∧
    (getP1Telegram tgDeviceTwoPages 10).2 ≠ [1, 2] := by
  refine ⟨by decide, by decide, by decide, by decide⟩

/-- C4 counterexample: when the decoded sequence of the meter-reading
endpoint is empty, GetMeterReading does not fail with an error as the
claim states; it panics with an index-out-of-range runtime error. -/
theorem c4_empty_sequence_counterexample :
    GoOutcome.isErr (getMeterReading (Except.ok [])) = false ∧
    getMeterReading (Except.ok ([] : List MeterReadingResponse)) =
      GoOutcome.panics indexOutOfRangeMsg :=
  ⟨rfl, rfl⟩

/-- C4 (amended): GetMeterReading returns the single element when the
decoded sequence has exactly one element (the first element of any
nonempty sequence), propagates a request or decode error, and panics with
an index-out-of-range runtime error (rather than failing with an error)
when the decoded sequence is empty. -/
theorem c4_meter_reading_unwrap :
    ∀ (x : MeterReadingResponse) (xs : List MeterReadingResponse) (e : GoErr),
      getMeterReading (Except.ok [x]) = GoOutcome.ok x ∧
      getMeterReading (Except.ok (x :: xs)) = GoOutcome.ok x ∧
      getMeterReading (Except.error e) = GoOutcome.err e ∧
      getMeterReading (Except.ok []) = GoOutcome.panics indexOutOfRangeMsg :=
  fun _ _ _ => ⟨rfl, rfl, rfl, rfl⟩

/-- C5 counterexample: when the authentication exchange succeeds but
yields no cookie to cache, Authorize does not fail with an error as the
claim states; it panics dereferencing the nil cached-cookie pointer. -/
theorem c5_no_cookie_counterexample :
    GoOutcome.isErr (authorize (Except.ok 200) none) = false ∧
    authorize (Except.ok 200) none = GoOutcome.panics nilDerefMsg :=
  ⟨rfl, rfl⟩

/-- C5 (amended): for every call to Authorize, a 403 response fails with
the invalid-password error; any other status above 400 fails with
UnexpectedResponseError; on a successful exchange it returns the
now-cached auth cookie when one was captured, and panics with a
nil-pointer dereference (rather than failing with an error) when the
exchange yielded no cookie to cache; a transport failure is wrapped. -/
theorem c5_authorize_outcomes :
    ∀ (status : Nat) (ck : Option GoCookie) (c : GoCookie) (msg : String),
      (status = 403 →
        authorize (Except.ok status) ck = GoOutcome.err GoErr.invalidPassword) ∧
      (status > 400 → status ≠ 403 →
        authorize (Except.ok status) ck =
          GoOutcome.err (GoErr.unexpectedResponse status)) ∧
      (status ≤ 400 → authorize (Except.ok status) (some c) = GoOutcome.ok c) ∧
      (status ≤ 400 →
        authorize (Except.ok status) none = GoOutcome.panics nilDerefMsg) ∧
      authorize (Except.error msg) ck = GoOutcome.err (GoErr.transport msg) := by
  intro status ck c msg
  refine ⟨fun h403 => ?_, fun hgt hne => ?_, fun hle => ?_, fun hle => ?_, rfl⟩
  · simp [authorize, h403]
  · simp [authorize, hne, hgt]
  · have h1 : status ≠ 403 := by omega
    have h2 : ¬ status > 400 := by omega
    simp [authorize, h1, h2]
  · have h1 : status ≠ 403 := by omega
    have h2 : ¬ status > 400 := by omega
    simp [authorize, h1, h2]

theorem c5_authorize_outcomes_witness :
    authorize (Except.ok 403) none = GoOutcome.err GoErr.invalidPassword ∧
    authorize (Except.ok 500) none =
      GoOutcome.err (GoErr.unexpectedResponse 500) ∧
    authorize (Except.ok 200) (some ⟨"tk", "secret"⟩) =
      GoOutcome.ok ⟨"tk", "secret"⟩ ∧
    authorize (Except.error "timeout") none =
      GoOutcome.err (GoErr.transport "timeout") :=
  ⟨(c5_authorize_outcomes 403 none ⟨"tk", "secret"⟩ "x").1 rfl,
   (c5_authorize_outcomes 500 none ⟨"tk", "secret"⟩ "x").2.1 (by decide) (by decide),
   (c5_authorize_outcomes 200 (some ⟨"tk", "secret"⟩) ⟨"tk", "secret"⟩ "x").2.2.1
     (by decide),
   (c5_authorize_outcomes 200 none ⟨"tk", "secret"⟩ "timeout").2.2.2.2⟩

/-- C6: for gas and water, requesting a log page with the per-minute
interval fails with UnsupportedIntervalError carrying that utility and
interval, with the Requester never invoked (zero calls); and for every
other utility/interval combination within the closed sets, the pre-check
passes. -/
theorem c6_unsupported_interval_combination :
    ∀ (requester : String → Except GoErr LogResponse)
      (u : Utility) (i : Interval) (page : Nat),
      ((u = Gas ∨ u = Water) → i = PerMin →
        getLog requester u i page =
          (GoOutcome.err (GoErr.unsupportedInterval u i), 0)) ∧
      ((u = Electricity ∨ u = S0 ∨ u = Gas ∨ u = Water) →
        (i = PerMin ∨ i = Per10min ∨ i = PerHour ∨ i = PerDay) →
        ¬(i = PerMin ∧ (u = Gas ∨ u = Water)) →
        unsupportedCheck u i = false) := by
  intro requester u i page
  constructor
  · intro hu hi
    have hc : unsupportedCheck u i = true := by
      simp [unsupportedCheck, hi, hu]
    simp [getLog, hc]
  · intro hu hi hno
    rcases hu with rfl | rfl | rfl | rfl <;>
      rcases hi with rfl | rfl | rfl | rfl <;>
      revert hno <;> decide

theorem c6_unsupported_interval_combination_witness :
    getLog dummyRequester Water PerMin 1 =
      (GoOutcome.err (GoErr.unsupportedInterval Water PerMin), 0) ∧
    unsupportedCheck Electricity PerMin = false :=
  ⟨(c6_unsupported_interval_combination dummyRequester Water PerMin 1).1
      (Or.inr rfl) rfl,
   (c6_unsupported_interval_combination dummyRequester Electricity PerMin 1).2
      (Or.inl rfl) (Or.inl rfl) (by decide)⟩

/-- C7: for every log page containing a raw value that is neither empty
nor "*" and does not parse as an integer after trimming whitespace (the
first such value, all earlier values being decodable), TimedValues fails
with a parse error while returning the samples decoded before the failing
position. -/
theorem c7_partial_results_on_parse_error :
    ∀ (r : LogResponse) (pre : List String) (v : String) (rest : List String)
      (dt : Int),
      r.rawValues = pre ++ v :: rest →
      Interval.Duration? r.interval = some dt →
      (∀ w ∈ pre, w = "" ∨ w = "*" ∨ goParseInt64 (goTrimSpace w) ≠ none) →
      ¬(v = "" ∨ v = "*") →
      goParseInt64 (goTrimSpace v) = none →
      LogResponse.TimedValues r =
        TVResult.errWith (goodSamples dt (logStartSec r) pre) (parseIntErr v) := by
  intro r pre v rest dt h1 h2 hgood hv hp
  simp only [LogResponse.TimedValues, h2, timedValuesResult, h1]
  have hlen : (pre ++ v :: rest).length - 1 = pre.length + rest.length := by
    simp only [List.length_append, List.length_cons]
    omega
  rw [hlen, tvAux_first_bad dt v rest hv hp pre 0 (pre.length + rest.length)
    (logStartSec r) hgood (by omega)]

theorem c7_partial_results_on_parse_error_witness :
    LogResponse.TimedValues ⟨"Watt", "2024-01-01T00:00:00", PerHour, ["10", "*", "zz"]⟩ =
      TVResult.errWith
        (goodSamples 3600
          (logStartSec ⟨"Watt", "2024-01-01T00:00:00", PerHour, ["10", "*", "zz"]⟩)
          ["10", "*"])
        (parseIntErr "zz") :=
  c7_partial_results_on_parse_error
    ⟨"Watt", "2024-01-01T00:00:00", PerHour, ["10", "*", "zz"]⟩
    ["10", "*"] "zz" [] 3600 rfl rfl (by decide) (by decide) (by decide)

/-- C8: ToTimestamp maps 2024-01-28T12:00:00Z to 2401281200,
ParseTimestamp maps 2401281200 back to 2024-01-28T12:00:00Z, and
ParseTimestamp fails on the nine-digit 240128120. -/
theorem c8_timestamp_codec_roundtrip :
    ToTimestamp (goDate 2024 1 28 12 0 0) = 2401281200 ∧
    ParseTimestamp 2401281200 = some (goDate 2024 1 28 12 0 0) ∧
    ParseTimestamp 240128120 = none := by
  refine ⟨by decide, by decide, by decide⟩

/-- C9: in the in-flight registry, two callers arriving on the same key
before completion share one physical exchange and observe the identical
outcome; after completion the entry is gone (no pending exchange, no
waiters), and a subsequent caller on the same key triggers a fresh
physical exchange whose outcome is that of the second exchange, not a
cached result. -/
theorem c9_singleflight_dedup :
    ∀ {α : Type} (fn : Nat → α) (a b c : Nat),
      sfRun fn [SFEvent.arrive a, SFEvent.arrive b, SFEvent.complete] =
        ⟨[], false, 1, [(a, fn 0), (b, fn 0)]⟩ ∧
      sfRun fn [SFEvent.arrive a, SFEvent.arrive b, SFEvent.complete,
          SFEvent.arrive c, SFEvent.complete] =
        ⟨[], false, 2, [(a, fn 0), (b, fn 0), (c, fn 1)]⟩ := by
  intro α fn a b c
  exact ⟨rfl, rfl⟩

/-- C10: PhaseReading.InUse returns true exactly when both Current and
Power equal zero; in particular a phase with a nonzero current or a
nonzero power is reported as false. -/
theorem c10_phase_in_use_predicate :
    ∀ (r : PhaseReading),
      (PhaseReading.InUse r = true ↔ r.Current = 0 ∧ r.Power = 0) ∧
      ((r.Current ≠ 0 ∨ r.Power ≠ 0) → PhaseReading.InUse r = false) := by
  intro r
  constructor
  · simp [PhaseReading.InUse]
  · intro h
    simp only [PhaseReading.InUse, decide_eq_false_iff_not]
    tauto

theorem c10_phase_in_use_predicate_witness :
    PhaseReading.InUse ⟨1, 0, 230⟩ = false :=
  (c10_phase_in_use_predicate ⟨1, 0, 230⟩).2 (Or.inl (by decide))

end Youless
